import Mathlib

/-!
Verification of `atom/app/atom_main_delegate.cc` (the process-bootstrap
main delegate of an Electron-style Chromium embedder).

The command line is modelled as an ordered list of (switch, value) pairs;
`HasSwitch`, `GetSwitchValueASCII` and `AppendSwitch` mirror the
`base::CommandLine` operations the file uses.  Platform `#if` branches
(`OS_WIN`, `OS_MACOSX`, POSIX-non-mac) are modelled by an `OS` parameter,
the `DEBUG` build flag by a `debug : Bool` parameter.  Each delegate
method becomes a pure function returning a record of its observable
effects (return value, switches appended, clients constructed, logging
settings chosen).
-/

namespace atom

/-- Platform selector for the `#if defined(OS_WIN) / OS_MACOSX / POSIX` blocks.
`linux` stands for POSIX-non-mac. -/
inductive OS
  | win
  | macosx
  | linux
deriving DecidableEq, Repr

/-- Model of `base::CommandLine`: an ordered list of (switch-name, value)
pairs, in the order they were appended. -/
structure CommandLine where
  switches : List (String × String)
deriving DecidableEq, Repr

/-- `base::CommandLine::HasSwitch`: the switch name occurs on the command
line. -/
def CommandLine.HasSwitch (cmd : CommandLine) (s : String) : Bool :=
  cmd.switches.any (fun p => p.1 == s)

/-- `base::CommandLine::GetSwitchValueASCII`: the value of the switch, or the
empty string when the switch is absent. -/
def CommandLine.GetSwitchValueASCII (cmd : CommandLine) (s : String) : String :=
  match cmd.switches.find? (fun p => p.1 == s) with
  | some p => p.2
  | none => ""

/-- `base::CommandLine::AppendSwitch`: appends a switch (with empty value) at
the end of the command line. -/
def CommandLine.AppendSwitch (cmd : CommandLine) (s : String) : CommandLine :=
  ⟨cmd.switches ++ [(s, "")]⟩

/-- Model of `base::Environment`: the set of environment variables that are
set, as a list of names. -/
structure Env where
  vars : List String
deriving DecidableEq, Repr

/-- `base::Environment::HasVar`. -/
def Env.HasVar (env : Env) (s : String) : Bool :=
  env.vars.contains s

/-! Switch-name constants.  `kRelauncherProcess` is defined in the source
file itself; the others come from the Chromium / services headers the file
includes (`content_switches.h`, `service_manager` switches,
`ui_base_switches.h`) and from `atom/common/options_switches.h`, with their
standard string values. -/

/-- `kRelauncherProcess` from the source file. -/
def kRelauncherProcess : String := "relauncher"

/-- `::switches::kProcessType`. -/
def kProcessType : String := "type"

/-- `::switches::kRendererProcess`. -/
def kRendererProcess : String := "renderer"

/-- `::switches::kUtilityProcess`. -/
def kUtilityProcess : String := "utility"

/-- `service_manager::switches::kZygoteProcess`. -/
def kZygoteProcess : String := "zygote"

/-- `::switches::kGpuProcess`. -/
def kGpuProcess : String := "gpu-process"

/-- `::switches::kPpapiPluginProcess`. -/
def kPpapiPluginProcess : String := "ppapi"

/-- `::switches::kPpapiBrokerProcess`. -/
def kPpapiBrokerProcess : String := "ppapi-broker"

/-- `::switches::kLang`. -/
def kLang : String := "lang"

/-- `::switches::kEnableLogging`. -/
def kEnableLogging : String := "enable-logging"

/-- `atom::switches::kEnableSandbox`. -/
def kEnableSandbox : String := "enable-sandbox"

/-- `atom::switches::kEnableMixedSandbox`. -/
def kEnableMixedSandbox : String := "enable-mixed-sandbox"

/-- `service_manager::switches::kNoSandbox`. -/
def kNoSandbox : String := "no-sandbox"

/-- `service_manager::switches::kDisableSetuidSandbox`. -/
def kDisableSetuidSandbox : String := "disable-setuid-sandbox"

/-- `::switches::kAllowFileAccessFromFiles`. -/
def kAllowFileAccessFromFiles : String := "allow-file-access-from-files"

/-- Name of the environment variable checked in `BasicStartupComplete`. -/
def kElectronEnableLoggingVar : String := "ELECTRON_ENABLE_LOGGING"

/-- `IsBrowserProcess` from the anonymous namespace of the source file:
the process-type switch value is empty. -/
def IsBrowserProcess (cmd : CommandLine) : Bool :=
  (cmd.GetSwitchValueASCII kProcessType).isEmpty

/-- `SubprocessNeedsResourceBundle` from the anonymous namespace, with the
platform `#if` blocks made explicit via the `os` parameter. -/
def SubprocessNeedsResourceBundle (os : OS) (process_type : String) : Bool :=
  (os == OS.linux && process_type == kZygoteProcess) ||
  (os == OS.macosx &&
    (process_type == kPpapiPluginProcess ||
     process_type == kPpapiBrokerProcess ||
     process_type == kGpuProcess)) ||
  process_type == kRendererProcess ||
  process_type == kUtilityProcess

/-- Logging destinations selected in `BasicStartupComplete`
(from `logging::LoggingSettings`). -/
inductive LoggingDest
  | logToAll
  | logToSystemDebugLog
  | logNone
deriving DecidableEq, Repr

/-- Default logging destination chosen by the platform `#if` block before the
enable-logging check: `LOG_TO_ALL` on Windows debug builds,
`LOG_TO_SYSTEM_DEBUG_LOG` everywhere else. -/
def defaultLoggingDest : OS → Bool → LoggingDest
  | OS.win, true => LoggingDest.logToAll
  | OS.win, false => LoggingDest.logToSystemDebugLog
  | OS.macosx, _ => LoggingDest.logToSystemDebugLog
  | OS.linux, _ => LoggingDest.logToSystemDebugLog

/-- The content client installed by `BasicStartupComplete`. -/
inductive ContentClientKind
  | atomContentClient
deriving DecidableEq, Repr

/-- Observable effects of `AtomMainDelegate::BasicStartupComplete`. -/
structure BasicStartupResult where
  returnValue : Bool
  logging_dest : LoggingDest
  minLogLevelRaisedToNumSeverities : Bool
  contentClient : ContentClientKind
deriving DecidableEq, Repr

/-- `AtomMainDelegate::BasicStartupComplete`, reduced to its observable
effects: the logging destination finally passed to `logging::InitLogging`,
whether `SetMinLogLevel(LOG_NUM_SEVERITIES)` was called, the content client
installed via `SetContentClient`, and the boolean return value. -/
def BasicStartupComplete (os : OS) (debug : Bool) (cmd : CommandLine)
    (env : Env) : BasicStartupResult :=
  let dest := defaultLoggingDest os debug
  let disableLogging :=
    !(cmd.HasSwitch kEnableLogging) && !(env.HasVar kElectronEnableLoggingVar)
  { returnValue := false,
    logging_dest := if disableLogging then LoggingDest.logNone else dest,
    minLogLevelRaisedToNumSeverities := disableLogging,
    contentClient := ContentClientKind.atomContentClient }

/-- Observable effects of `AtomMainDelegate::PreSandboxStartup`:
whether `LoadResourceBundle` was called and with which locale, and the
command line after the function returns. -/
structure PreSandboxResult where
  loadedResourceBundle : Option String
  command_line : CommandLine
deriving DecidableEq, Repr

/-- `AtomMainDelegate::PreSandboxStartup`, translated clause by clause:
resource-bundle step, early return for non-browser processes, sandbox-switch
block, `allow-file-access-from-files`, and the macOS-only
`enable-avfoundation` append. -/
def PreSandboxStartup (os : OS) (cmd : CommandLine) : PreSandboxResult :=
  let process_type := cmd.GetSwitchValueASCII kProcessType
  let loaded : Option String :=
    if SubprocessNeedsResourceBundle os process_type then
      some (cmd.GetSwitchValueASCII kLang)
    else
      none
  if !(IsBrowserProcess cmd) then
    { loadedResourceBundle := loaded, command_line := cmd }
  else
    let cmd1 :=
      if !(cmd.HasSwitch kEnableMixedSandbox) then
        if cmd.HasSwitch kEnableSandbox then
          cmd.AppendSwitch kDisableSetuidSandbox
        else
          cmd.AppendSwitch kNoSandbox
      else
        cmd
    let cmd2 := cmd1.AppendSwitch kAllowFileAccessFromFiles
    let cmd3 :=
      if os == OS.macosx then cmd2.AppendSwitch "enable-avfoundation" else cmd2
    { loadedResourceBundle := loaded, command_line := cmd3 }

/-- Names of the switches `PreSandboxStartup` appended to the command line,
in order: the suffix of the resulting switch list past the original one. -/
def appendedSwitchNames (os : OS) (cmd : CommandLine) : List String :=
  (((PreSandboxStartup os cmd).command_line.switches).drop
    cmd.switches.length).map Prod.fst

/-- The renderer clients `CreateContentRendererClient` can construct. -/
inductive RendererClientKind
  | atomSandboxedRendererClient
  | atomRendererClient
deriving DecidableEq, Repr

/-- `AtomMainDelegate::CreateContentRendererClient`: chooses the sandboxed
renderer client when `--enable-sandbox` is present or `--no-sandbox` is
absent, the plain renderer client otherwise. -/
def CreateContentRendererClient (cmd : CommandLine) : RendererClientKind :=
  if cmd.HasSwitch kEnableSandbox || !(cmd.HasSwitch kNoSandbox) then
    RendererClientKind.atomSandboxedRendererClient
  else
    RendererClientKind.atomRendererClient

/-- The browser clients `CreateContentBrowserClient` can construct. -/
inductive BrowserClientKind
  | atomBrowserClient
deriving DecidableEq, Repr

/-- `AtomMainDelegate::CreateContentBrowserClient`: unconditionally constructs
a fresh `AtomBrowserClient` and returns it. -/
def CreateContentBrowserClient (_cmd : CommandLine) : BrowserClientKind :=
  BrowserClientKind.atomBrowserClient

/-- The utility clients `CreateContentUtilityClient` can construct. -/
inductive UtilityClientKind
  | atomContentUtilityClient
deriving DecidableEq, Repr

/-- `AtomMainDelegate::CreateContentUtilityClient`: unconditionally constructs
a fresh `AtomContentUtilityClient` and returns it. -/
def CreateContentUtilityClient (_cmd : CommandLine) : UtilityClientKind :=
  UtilityClientKind.atomContentUtilityClient

/-- Outcome of `AtomMainDelegate::RunProcess`: either control is delegated to
`relauncher::RelauncherMain` (whose return value is produced outside this
file), or an exit code is returned directly. -/
inductive RunProcessOutcome
  | relauncherMain
  | returnCode (code : Int)
deriving DecidableEq, Repr

/-- `AtomMainDelegate::RunProcess`. -/
def RunProcess (process_type : String) : RunProcessOutcome :=
  if process_type == kRelauncherProcess then
    RunProcessOutcome.relauncherMain
  else
    RunProcessOutcome.returnCode (-1)

/-- Helper: in the browser process, the switches `PreSandboxStartup` appends
are exactly: one sandbox switch (unless mixed sandbox is enabled), then
`allow-file-access-from-files`, then (macOS only) `enable-avfoundation`. -/
theorem appendedSwitchNames_browser (os : OS) (cmd : CommandLine)
    (h : IsBrowserProcess cmd = true) :
    appendedSwitchNames os cmd =
      (if cmd.HasSwitch kEnableMixedSandbox then []
       else if cmd.HasSwitch kEnableSandbox then [kDisableSetuidSandbox]
       else [kNoSandbox]) ++
      [kAllowFileAccessFromFiles] ++
      (if os == OS.macosx then ["enable-avfoundation"] else []) := by
  unfold appendedSwitchNames PreSandboxStartup
  cases hmb : cmd.HasSwitch kEnableMixedSandbox <;>
    cases hes : cmd.HasSwitch kEnableSandbox <;>
      cases os <;>
        simp [h, hmb, hes, CommandLine.AppendSwitch, List.append_assoc,
          List.drop_left]

/-- C1: `RunProcess` delegates to `relauncher::RelauncherMain` exactly when
the process type is "relauncher", and returns -1 for every other
process-type string. -/
theorem runProcess_spec :
    RunProcess kRelauncherProcess = RunProcessOutcome.relauncherMain ∧
    ∀ pt : String, pt ≠ kRelauncherProcess →
      RunProcess pt = RunProcessOutcome.returnCode (-1) := by
  constructor
  · rfl
  · intro pt h
    unfold RunProcess
    simp [h]

/-- Witness for C1 at the concrete process-type strings named by the claim. -/
theorem runProcess_spec_witness :
    RunProcess "browser" = RunProcessOutcome.returnCode (-1) ∧
    RunProcess "renderer" = RunProcessOutcome.returnCode (-1) ∧
    RunProcess "utility" = RunProcessOutcome.returnCode (-1) ∧
    RunProcess "gpu" = RunProcessOutcome.returnCode (-1) ∧
    RunProcess "zygote" = RunProcessOutcome.returnCode (-1) :=
  ⟨runProcess_spec.2 "browser" (by decide),
   runProcess_spec.2 "renderer" (by decide),
   runProcess_spec.2 "utility" (by decide),
   runProcess_spec.2 "gpu" (by decide),
   runProcess_spec.2 "zygote" (by decide)⟩

/-- C2: in a browser process, when mixed sandbox is off exactly one sandbox
switch is appended (`disable-setuid-sandbox` if `--enable-sandbox` is
present, `no-sandbox` otherwise); when mixed sandbox is on, neither is
appended. -/
theorem preSandboxStartup_sandbox_switches (os : OS) (cmd : CommandLine)
    (h : IsBrowserProcess cmd = true) :
    (cmd.HasSwitch kEnableMixedSandbox = false →
      (cmd.HasSwitch kEnableSandbox = true →
        (appendedSwitchNames os cmd).count kDisableSetuidSandbox = 1 ∧
        (appendedSwitchNames os cmd).count kNoSandbox = 0) ∧
      (cmd.HasSwitch kEnableSandbox = false →
        (appendedSwitchNames os cmd).count kNoSandbox = 1 ∧
        (appendedSwitchNames os cmd).count kDisableSetuidSandbox = 0)) ∧
    (cmd.HasSwitch kEnableMixedSandbox = true →
      (appendedSwitchNames os cmd).count kDisableSetuidSandbox = 0 ∧
      (appendedSwitchNames os cmd).count kNoSandbox = 0) := by
  rw [appendedSwitchNames_browser os cmd h]
  cases hmb : cmd.HasSwitch kEnableMixedSandbox <;>
    cases hes : cmd.HasSwitch kEnableSandbox <;>
      cases os <;> simp <;> decide

/-- Witness for C2: an empty browser command line gets exactly `no-sandbox`
appended and not `disable-setuid-sandbox`. -/
theorem preSandboxStartup_sandbox_switches_witness :
    (appendedSwitchNames OS.linux ⟨[]⟩).count kNoSandbox = 1 ∧
    (appendedSwitchNames OS.linux ⟨[]⟩).count kDisableSetuidSandbox = 0 :=
  ((preSandboxStartup_sandbox_switches OS.linux ⟨[]⟩ (by decide)).1
      (by decide)).2 (by decide)

/-- C3: `LoadResourceBundle` is called (with the `--lang` locale) iff
`SubprocessNeedsResourceBundle` holds for the process type, and
`SubprocessNeedsResourceBundle` holds exactly for renderer or utility on
all platforms, additionally zygote on POSIX non-mac, and additionally
ppapi-plugin, ppapi-broker or gpu on macOS. -/
theorem preSandboxStartup_resource_bundle (os : OS) (cmd : CommandLine) :
    ((PreSandboxStartup os cmd).loadedResourceBundle =
      if SubprocessNeedsResourceBundle os
          (cmd.GetSwitchValueASCII kProcessType) then
        some (cmd.GetSwitchValueASCII kLang)
      else
        none) ∧
    ∀ pt : String,
      SubprocessNeedsResourceBundle os pt = true ↔
        (pt = kRendererProcess ∨ pt = kUtilityProcess ∨
         (os = OS.linux ∧ pt = kZygoteProcess) ∨
         (os = OS.macosx ∧
           (pt = kPpapiPluginProcess ∨ pt = kPpapiBrokerProcess ∨
            pt = kGpuProcess))) := by
  constructor
  · cases h : IsBrowserProcess cmd <;> simp [PreSandboxStartup, h]
  · intro pt
    unfold SubprocessNeedsResourceBundle
    cases os <;> simp <;> tauto

/-- C4: `CreateContentRendererClient` returns the sandboxed renderer client
iff `--enable-sandbox` is present or `--no-sandbox` is absent, the plain
renderer client otherwise, and the choice depends only on those two flags. -/
theorem createContentRendererClient_spec (cmd cmd2 : CommandLine) :
    (CreateContentRendererClient cmd =
        RendererClientKind.atomSandboxedRendererClient ↔
      (cmd.HasSwitch kEnableSandbox = true ∨
       cmd.HasSwitch kNoSandbox = false)) ∧
    (CreateContentRendererClient cmd = RendererClientKind.atomRendererClient ↔
      (cmd.HasSwitch kEnableSandbox = false ∧
       cmd.HasSwitch kNoSandbox = true)) ∧
    (cmd.HasSwitch kEnableSandbox = cmd2.HasSwitch kEnableSandbox →
     cmd.HasSwitch kNoSandbox = cmd2.HasSwitch kNoSandbox →
     CreateContentRendererClient cmd = CreateContentRendererClient cmd2) := by
  refine ⟨?_, ?_, ?_⟩
  · unfold CreateContentRendererClient
    cases h1 : cmd.HasSwitch kEnableSandbox <;>
      cases h2 : cmd.HasSwitch kNoSandbox <;> simp [h1, h2]
  · unfold CreateContentRendererClient
    cases h1 : cmd.HasSwitch kEnableSandbox <;>
      cases h2 : cmd.HasSwitch kNoSandbox <;> simp [h1, h2]
  · intro h1 h2
    unfold CreateContentRendererClient
    rw [h1, h2]

/-- Witness for C4: two command lines with different process-type strings but
the same sandbox flags choose the same renderer client. -/
theorem createContentRendererClient_spec_witness :
    CreateContentRendererClient ⟨[(kProcessType, kRendererProcess)]⟩ =
      CreateContentRendererClient ⟨[]⟩ :=
  (createContentRendererClient_spec ⟨[(kProcessType, kRendererProcess)]⟩
      ⟨[]⟩).2.2 (by decide) (by decide)

/-- C5: `IsBrowserProcess` holds iff the process-type switch value is the
empty string, so in particular the non-empty tag "browser" does not select
the browser role. -/
theorem isBrowserProcess_spec (cmd : CommandLine) :
    (IsBrowserProcess cmd = true ↔
      cmd.GetSwitchValueASCII kProcessType = "") ∧
    (cmd.GetSwitchValueASCII kProcessType = "browser" →
      IsBrowserProcess cmd = false) := by
  constructor
  · unfold IsBrowserProcess
    simp [String.isEmpty_iff]
  · intro h
    unfold IsBrowserProcess
    rw [h]
    decide

/-- Witness for C5: a command line whose process-type value is "browser" is
not the browser process. -/
theorem isBrowserProcess_spec_witness :
    IsBrowserProcess ⟨[(kProcessType, "browser")]⟩ = false :=
  (isBrowserProcess_spec ⟨[(kProcessType, "browser")]⟩).2 (by decide)

/-- C6: `BasicStartupComplete` always returns false and always installs an
`AtomContentClient` as the content client. -/
theorem basicStartupComplete_spec (os : OS) (debug : Bool)
    (cmd : CommandLine) (env : Env) :
    (BasicStartupComplete os debug cmd env).returnValue = false ∧
    (BasicStartupComplete os debug cmd env).contentClient =
      ContentClientKind.atomContentClient :=
  ⟨rfl, rfl⟩

/-- C7: the browser- and utility-client factories unconditionally return
their one fixed client type. -/
theorem createClients_fixed (cmd : CommandLine) :
    CreateContentBrowserClient cmd = BrowserClientKind.atomBrowserClient ∧
    CreateContentUtilityClient cmd =
      UtilityClientKind.atomContentUtilityClient :=
  ⟨rfl, rfl⟩

/-- C8: logging is disabled (destination `LOG_NONE` and minimum level raised
to `LOG_NUM_SEVERITIES`) iff both `--enable-logging` is absent and
`ELECTRON_ENABLE_LOGGING` is unset; otherwise the platform-default
destination is kept. -/
theorem basicStartupComplete_logging (os : OS) (debug : Bool)
    (cmd : CommandLine) (env : Env) :
    (((BasicStartupComplete os debug cmd env).logging_dest =
          LoggingDest.logNone ∧
        (BasicStartupComplete os debug cmd
            env).minLogLevelRaisedToNumSeverities = true) ↔
      (cmd.HasSwitch kEnableLogging = false ∧
       env.HasVar kElectronEnableLoggingVar = false)) ∧
    ((cmd.HasSwitch kEnableLogging = true ∨
        env.HasVar kElectronEnableLoggingVar = true) →
      (BasicStartupComplete os debug cmd env).logging_dest =
        defaultLoggingDest os debug) := by
  cases h1 : cmd.HasSwitch kEnableLogging <;>
    cases h2 : env.HasVar kElectronEnableLoggingVar <;>
      simp [BasicStartupComplete, h1, h2]

/-- Witness for C8: with `--enable-logging` present, the platform-default
destination is kept. -/
theorem basicStartupComplete_logging_witness :
    (BasicStartupComplete OS.linux false ⟨[(kEnableLogging, "")]⟩
        ⟨[]⟩).logging_dest = defaultLoggingDest OS.linux false :=
  (basicStartupComplete_logging OS.linux false ⟨[(kEnableLogging, "")]⟩
      ⟨[]⟩).2 (Or.inl (by decide))

/-- C9: for a non-browser process, `PreSandboxStartup` leaves the command
line unchanged. -/
theorem preSandboxStartup_nonbrowser_unchanged (os : OS) (cmd : CommandLine)
    (h : IsBrowserProcess cmd = false) :
    (PreSandboxStartup os cmd).command_line = cmd := by
  unfold PreSandboxStartup
  simp [h]

/-- Witness for C9: a renderer-process command line is returned unchanged. -/
theorem preSandboxStartup_nonbrowser_unchanged_witness :
    (PreSandboxStartup OS.linux
        ⟨[(kProcessType, kRendererProcess)]⟩).command_line =
      ⟨[(kProcessType, kRendererProcess)]⟩ :=
  preSandboxStartup_nonbrowser_unchanged OS.linux
    ⟨[(kProcessType, kRendererProcess)]⟩ (by decide)

/-- C10: in every browser process, `allow-file-access-from-files` is appended
exactly once, regardless of the sandbox switches. -/
theorem preSandboxStartup_allow_file_access (os : OS) (cmd : CommandLine)
    (h : IsBrowserProcess cmd = true) :
    (appendedSwitchNames os cmd).count kAllowFileAccessFromFiles = 1 := by
  rw [appendedSwitchNames_browser os cmd h]
  cases hmb : cmd.HasSwitch kEnableMixedSandbox <;>
    cases hes : cmd.HasSwitch kEnableSandbox <;>
      cases os <;> decide

/-- Witness for C10 on an empty browser command line. -/
theorem preSandboxStartup_allow_file_access_witness :
    (appendedSwitchNames OS.linux ⟨[]⟩).count kAllowFileAccessFromFiles = 1 :=
  preSandboxStartup_allow_file_access OS.linux ⟨[]⟩ (by decide)

end atom
